import Mathlib

/-!
Verification of `improver/ensemble_calibration/ensemble_calibration.py`
(EMOS/NGR ensemble calibration).

The source manipulates numpy float arrays.  Values are modelled by `F`,
an extended-rational type with explicit `nan`/`inf`/`ninf` constructors
whose arithmetic follows IEEE-754 conventions (without signed zero);
gridded fields are flat `List F` data, with the realization axis of an
ensemble cube kept as an outer list.  External collaborators (scipy's
optimizer / normal CDF and PDF / OLS backend) are parameters of the
embedded functions, so every theorem quantifies over them.
-/

/-- Extended rationals modelling numpy floating-point values:
a finite rational, NaN, +inf or -inf. -/
inductive F where
  | q : ℚ → F
  | nan : F
  | inf : F
  | ninf : F
deriving DecidableEq, Repr

namespace F

/-- IEEE-style addition: NaN is absorbing, `inf + ninf = nan`. -/
def add : F → F → F
  | nan, _ => nan
  | _, nan => nan
  | q a, q b => q (a + b)
  | inf, ninf => nan
  | ninf, inf => nan
  | inf, _ => inf
  | _, inf => inf
  | ninf, _ => ninf
  | _, ninf => ninf

/-- IEEE-style negation. -/
def neg : F → F
  | nan => nan
  | inf => ninf
  | ninf => inf
  | q a => q (-a)

/-- IEEE-style subtraction. -/
def sub (a b : F) : F := add a (neg b)

/-- IEEE-style multiplication: NaN absorbing, `inf * 0 = nan`. -/
def mul : F → F → F
  | nan, _ => nan
  | _, nan => nan
  | q a, q b => q (a * b)
  | inf, q b => if 0 < b then inf else if b < 0 then ninf else nan
  | q a, inf => if 0 < a then inf else if a < 0 then ninf else nan
  | ninf, q b => if 0 < b then ninf else if b < 0 then inf else nan
  | q a, ninf => if 0 < a then ninf else if a < 0 then inf else nan
  | inf, inf => inf
  | inf, ninf => ninf
  | ninf, inf => ninf
  | ninf, ninf => inf

/-- IEEE-style division with (unsigned) zero: `a / 0` is `inf`, `ninf`
or `nan` according to the sign of `a`; `0 / 0 = nan`; `inf / inf = nan`. -/
def div : F → F → F
  | nan, _ => nan
  | _, nan => nan
  | q a, q b =>
      if b = 0 then (if 0 < a then inf else if a < 0 then ninf else nan)
      else q (a / b)
  | q _, inf => q 0
  | q _, ninf => q 0
  | inf, q b => if b < 0 then ninf else inf
  | ninf, q b => if b < 0 then inf else ninf
  | inf, inf => nan
  | inf, ninf => nan
  | ninf, inf => nan
  | ninf, ninf => nan

/-- `np.isfinite`. -/
def isFinite : F → Bool
  | q _ => true
  | _ => false

/-- `np.isnan`. -/
def isNan : F → Bool
  | nan => true
  | _ => false

/-- IEEE comparison `a < b`: false whenever either side is NaN. -/
def lt : F → F → Bool
  | nan, _ => false
  | _, nan => false
  | q a, q b => decide (a < b)
  | ninf, ninf => false
  | ninf, _ => true
  | _, ninf => false
  | inf, _ => false
  | q _, inf => true

/-- Binary minimum as used by `np.min`: NaN propagates. -/
def min2 : F → F → F
  | nan, _ => nan
  | _, nan => nan
  | ninf, _ => ninf
  | _, ninf => ninf
  | inf, b => b
  | a, inf => a
  | q a, q b => q (min a b)

end F

/-- `np.min` over a flat array (NaN-propagating); `np.min` of an empty
array is an error in numpy, modelled as NaN. -/
def npMin : List F → F
  | [] => F.nan
  | x :: xs => xs.foldl F.min2 x

/-- `np.nansum`: sum treating NaN entries as zero. -/
def npNansum (l : List F) : F :=
  l.foldl (fun acc x => if x.isNan then acc else F.add acc x) (F.q 0)

/-- Plain left-fold sum of a list of values (used for means/variances). -/
def sumF (l : List F) : F := l.foldl F.add (F.q 0)

/-- Integer square root by bounded search (kernel-reducible stand-in for
`Nat.sqrt`; agrees with it everywhere). -/
def natSqrtBounded (n : ℕ) : ℕ :=
  ((List.range (n + 1)).filter (fun k => k * k ≤ n)).foldl max 0

/-- Rational stand-in for `np.sqrt` on non-negative rationals: exact on
perfect-square rationals.  Theorems only rely on its finiteness and sign,
never on its value at non-perfect squares. -/
def ratSqrt (x : ℚ) : ℚ :=
  (natSqrtBounded x.num.toNat : ℚ) / (natSqrtBounded x.den : ℚ)

/-- `np.sqrt` on modelled floats: NaN for negative arguments. -/
def sqrtF : F → F
  | F.nan => F.nan
  | F.inf => F.inf
  | F.ninf => F.nan
  | F.q a => if a < 0 then F.nan else F.q (ratSqrt a)

/-- Python `str.lower()` on the character list of a string. -/
def pyLower (s : String) : String := ⟨s.data.map Char.toLower⟩

/-! ## Data model -/

/-- Transpose a member-major list of flat fields into point-major rows. -/
def transposeLists : List (List F) → List (List F)
  | [] => []
  | [r] => r.map (fun x => [x])
  | r :: rs => List.zipWith (fun x row => x :: row) r (transposeLists rs)

/-- The predictor argument of the core functions: either the collapsed
realization-mean field or the full member-major realization data, as
selected by `predictor_of_mean_flag` (source duck-types this as a cube). -/
inductive PredictorField where
  | meanField (data : List F)
  | realizationsField (members : List (List F))
deriving DecidableEq, Repr

/-- `cube.data.flatten()` on a predictor cube. -/
def flattenPF : PredictorField → List F
  | .meanField d => d
  | .realizationsField ms => ms.flatten

/-- Modelled from the spec: `convert_cube_data_to_2d` from
`ensemble_calibration_utilities` (not under `src/`), which reshapes a
realization cube into a 2-D array with one row per grid point and one
column per realization (after `enforce_coordinate_ordering` has put the
realization axis first). -/
def convert_cube_data_to_2d : PredictorField → List (List F)
  | .meanField d => d.map (fun x => [x])
  | .realizationsField ms => transposeLists ms

/-- Modelled from the spec: `check_predictor_of_mean_flag` from
`ensemble_calibration_utilities` (not under `src/`): a ConfigurationError
(invalid predictor mode) naming the offending value, for anything other
than "mean" or "realizations". -/
def check_predictor_of_mean_flag (flag : String) : Except String Unit :=
  if pyLower flag = "mean" ∨ pyLower flag = "realizations" then .ok ()
  else .error ("The requested value for the predictor_of_mean_flag " ++
    flag ++ " is not an accepted value.")

/-- External collaborator (iris realization-axis collapse, MEAN):
point-wise mean over the realization axis. -/
def ensembleMean (ms : List (List F)) : List F :=
  (transposeLists ms).map (fun col => F.div (sumF col) (F.q col.length))

/-- External collaborator (iris realization-axis collapse, VARIANCE,
ddof = 1): point-wise sample variance over the realization axis. -/
def ensembleVariance (ms : List (List F)) : List F :=
  (transposeLists ms).map (fun col =>
    let m := F.div (sumF col) (F.q col.length)
    F.div (sumF (col.map (fun x => F.mul (F.sub x m) (F.sub x m))))
      (F.q ((col.length : ℚ) - 1)))

/-- A plain gridded cube: validity-time points, a unit (modelled as the
scale factor to a fixed base unit) and flat field data. -/
structure CubeF where
  times : List ℕ
  units : ℚ
  data : List F
deriving DecidableEq, Repr

/-- An ensemble cube: validity-time points, a unit scale, and one flat
field per realization member. -/
structure EnsembleCubeF where
  times : List ℕ
  units : ℚ
  realizations : List (List F)
deriving DecidableEq, Repr

/-- External collaborator (iris in-place `cube.convert_units`): rescale
the data to the requested unit.  The source mutates the cube it is called
on; state passing makes that explicit. -/
def convertCubeUnits (c : CubeF) (u : ℚ) : CubeF :=
  { c with units := u, data := c.data.map (F.mul (F.q (c.units / u))) }

/-- External collaborator (iris in-place `cube.convert_units`) on an
ensemble cube. -/
def convertEnsembleUnits (c : EnsembleCubeF) (u : ℚ) : EnsembleCubeF :=
  ⟨c.times, u, c.realizations.map (fun m => m.map (F.mul (F.q (c.units / u))))⟩

/-! ## Objective Function Library
(`ContinuousRankedProbabilityScoreMinimisers`) -/

/-- `BAD_VALUE`: the arbitrary sentinel loss substituted when an infinite
value is detected during minimisation. -/
def BAD_VALUE : F := F.q 999999

/-- `MAX_ITERATIONS` for Nelder-Mead. -/
def MAX_ITERATIONS : ℕ := 200

/-- Row-times-vector product of `np.dot(all_data, beta)` for one row. -/
def dotRow (row beta : List F) : F :=
  (List.zipWith F.mul row beta).foldl F.add (F.q 0)

/-- `mu = np.dot(np.column_stack((ones, forecast_predictor)), beta)`:
each predictor row is prefixed with a 1 and dotted with `beta`. -/
def muOf (beta : List F) (predictorRows : List (List F)) : List F :=
  predictorRows.map (fun row => dotRow (F.q 1 :: row) beta)

/-- `sigma = np.sqrt(gamma**2 + delta**2 * forecast_var)` point-wise. -/
def sigmaOf (gamma delta : F) (forecastVar : List F) : List F :=
  forecastVar.map (fun v =>
    sqrtF (F.add (F.mul gamma gamma) (F.mul (F.mul delta delta) v)))

/-- The `beta` vector assembled from the coefficient guess: in mean mode
`initial_guess[2:]`; in realizations mode `[initial_guess[2]]` followed by
the squares of `initial_guess[3:]`. -/
def betaOf (flag : String) (initial_guess : List F) : List F :=
  if pyLower flag = "mean" then initial_guess.drop 2
  else
    match initial_guess.drop 2 with
    | [] => []
    | a :: bs => a :: bs.map (fun b => F.mul b b)

/-- `normal_crps_minimiser`: closed-form Gaussian CRPS loss, NaN-skipping
sum over grid points, with `BAD_VALUE` substituted when the minimum of
`mu/sigma` is not finite.  `cdf`/`pdf` are the external standard-normal
CDF/PDF (scipy `norm.cdf`/`norm.pdf`). -/
def normal_crps_minimiser (cdf pdf : F → F) (initial_guess : List F)
    (forecast_predictor : List (List F)) (truth forecast_var : List F)
    (sqrt_pi : F) (predictor_of_mean_flag : String) : F :=
  let beta := betaOf predictor_of_mean_flag initial_guess
  let mu := muOf beta forecast_predictor
  let sigma := sigmaOf (initial_guess.getD 0 F.nan) (initial_guess.getD 1 F.nan)
    forecast_var
  let xz := List.zipWith F.div (List.zipWith F.sub truth mu) sigma
  let result := npNansum (List.zipWith
    (fun s z => F.mul s
      (F.add (F.mul z (F.sub (F.mul (F.q 2) (cdf z)) (F.q 1)))
        (F.sub (F.mul (F.q 2) (pdf z)) (F.div (F.q 1) sqrt_pi))))
    sigma xz)
  if !(npMin (List.zipWith F.div mu sigma)).isFinite then BAD_VALUE
  else result

/-- `truncated_normal_crps_minimiser`: closed-form CRPS loss for a normal
distribution truncated at zero, renormalized by the square of the CDF at
`mu/sigma`; `BAD_VALUE` is substituted when the minimum of `mu/sigma` is
not finite or is below -3. -/
def truncated_normal_crps_minimiser (cdf pdf : F → F) (initial_guess : List F)
    (forecast_predictor : List (List F)) (truth forecast_var : List F)
    (sqrt_pi : F) (predictor_of_mean_flag : String) : F :=
  let beta := betaOf predictor_of_mean_flag initial_guess
  let mu := muOf beta forecast_predictor
  let sigma := sigmaOf (initial_guess.getD 0 F.nan) (initial_guess.getD 1 F.nan)
    forecast_var
  let xz := List.zipWith F.div (List.zipWith F.sub truth mu) sigma
  let x0 := List.zipWith F.div mu sigma
  let result := npNansum (List.zipWith
    (fun sx0 z =>
      let s := sx0.1
      let c0 := cdf sx0.2
      let cRoot2 := cdf (F.mul (sqrtF (F.q 2)) sx0.2)
      F.mul (F.div s (F.mul c0 c0))
        (F.add (F.mul (F.mul z c0)
            (F.sub (F.add (F.mul (F.q 2) (cdf z)) c0) (F.q 2)))
          (F.sub (F.mul (F.mul (F.q 2) (pdf z)) c0)
            (F.div cRoot2 sqrt_pi))))
    (List.zip sigma x0) xz)
  if !(npMin x0).isFinite || F.lt (npMin x0) (F.q (-3)) then BAD_VALUE
  else result

/-! ## Minimizer wrapper  (`crps_minimiser_wrapper`) -/

/-- The external derivative-free optimizer (scipy `minimize` with
method "Nelder-Mead"): given the objective (with the data already bound)
and the initial guess, it returns the final iterate `optimised_coeffs.x`.
Its convergence diagnostics only feed warnings in the source and never
the returned value. -/
abbrev Optimizer := (List F → F) → List F → List F

/-- Approximate value of `np.sqrt(np.pi)` in single precision; only ever
passed through to the objective, never inspected by a theorem. -/
def sqrtPiApprox : F := F.q (17724539 / 10000000)

/-- `crps_minimiser_wrapper`: select the minimisation function from the
distribution-keyed dictionary (a KeyError naming the requested
distribution if absent), validate the predictor flag, flatten the data
and run the optimizer on the selected objective. -/
def crps_minimiser_wrapper (optimizer : Optimizer) (cdf pdf : F → F)
    (initial_guess : List F) (forecast_predictor : PredictorField)
    (truth : CubeF) (forecast_var : List F)
    (predictor_of_mean_flag : String) (distribution : String) :
    Except String (List F) := do
  let minimisation_function ←
    if distribution = "gaussian" then
      Except.ok (normal_crps_minimiser cdf pdf)
    else if distribution = "truncated gaussian" then
      Except.ok (truncated_normal_crps_minimiser cdf pdf)
    else
      Except.error ("Distribution requested " ++ distribution ++
        " is not supported in the minimisation dictionary")
  let _ ← check_predictor_of_mean_flag predictor_of_mean_flag
  let forecast_predictor_rows :=
    if pyLower predictor_of_mean_flag = "mean" then
      (flattenPF forecast_predictor).map (fun x => [x])
    else
      convert_cube_data_to_2d forecast_predictor
  let truth_data := truth.data
  Except.ok (optimizer
    (fun params => minimisation_function params forecast_predictor_rows
      truth_data forecast_var sqrtPiApprox predictor_of_mean_flag)
    initial_guess)

/-! ## Initial Guess Estimator  (`compute_initial_guess`) -/

/-- Modelled from the spec (external collaborator `scipy.stats.linregress`):
closed-form ordinary-least-squares slope and intercept of `y` against `x`,
returned as (gradient, intercept). -/
def linregressF (x y : List F) : F × F :=
  let n : F := F.q x.length
  let sx := sumF x
  let sy := sumF y
  let sxy := sumF (List.zipWith F.mul x y)
  let sxx := sumF (x.map (fun a => F.mul a a))
  let gradient := F.div (F.sub (F.mul n sxy) (F.mul sx sy))
    (F.sub (F.mul n sxx) (F.mul sx sx))
  let intercept := F.div (F.sub sy (F.mul gradient sx)) n
  (gradient, intercept)

/-- The external statsmodels OLS backend used in realizations mode:
given the masked truth values and the constant-prefixed predictor rows it
returns the fitted parameter vector (intercept then gradients). -/
abbrev SmFit := List F → List (List F) → List F

/-- `combined_not_nan` for a 1-D predictor: point-wise conjunction of the
truth and forecast not-NaN masks. -/
def combinedNotNan (truthData forecastData : List F) : List Bool :=
  List.zipWith (fun t f => !t.isNan && !f.isNan) truthData forecastData

/-- Boolean-mask indexing `arr[mask]` of numpy. -/
def maskSelect (mask : List Bool) (l : List F) : List F :=
  ((List.zip mask l).filter (fun p => p.1)).map Prod.snd

/-- `combined_not_nan` for member-major 2-D forecast data: a point is
valid when the truth and every realization are non-NaN there
(`np.all` over the rows of `np.row_stack`). -/
def combinedNotNan2d (truthData : List F) (members : List (List F)) : List Bool :=
  members.foldl (fun mask m => List.zipWith (fun b f => b && !f.isNan) mask m)
    (truthData.map (fun t => !t.isNan))

/-- `compute_initial_guess` of
`EstimateCoefficientsForEnsembleCalibration`: default coefficients
[1, 1, 0, 1] (mean) or [1, 1, 0] ++ R ones (realizations) when no linear
model is requested, otherwise regression-based [1, 1, intercept, slope(s)]
over non-NaN points, falling back to the defaults in realizations mode
when the statsmodels backend is unavailable. -/
def compute_initial_guess (statsmodels_found : Bool) (smFit : SmFit)
    (truth : CubeF) (forecast_predictor : PredictorField)
    (predictor_of_mean_flag : String)
    (estimate_coefficients_from_linear_model_flag : Bool)
    (no_of_realizations : Option ℕ) : List F :=
  if pyLower predictor_of_mean_flag = "mean" ∧
      ¬estimate_coefficients_from_linear_model_flag then
    [F.q 1, F.q 1, F.q 0, F.q 1]
  else if pyLower predictor_of_mean_flag = "realizations" ∧
      ¬estimate_coefficients_from_linear_model_flag then
    [F.q 1, F.q 1, F.q 0] ++ List.replicate (no_of_realizations.getD 0) (F.q 1)
  else if pyLower predictor_of_mean_flag = "mean" then
    let truth_flat := truth.data
    let forecast_flat := flattenPF forecast_predictor
    let mask := combinedNotNan truth_flat forecast_flat
    if mask.all (fun b => !b) then
      [F.q 1, F.q 1, F.nan, F.nan]
    else
      let gi := linregressF (maskSelect mask forecast_flat)
        (maskSelect mask truth_flat)
      [F.q 1, F.q 1, gi.2, gi.1]
  else
    match forecast_predictor with
    | .realizationsField members =>
      if statsmodels_found then
        let truth_flat := truth.data
        let mask := combinedNotNan2d truth_flat members
        let val := (transposeLists (members.map (maskSelect mask))).map
          (fun row => F.q 1 :: row)
        let est := smFit (maskSelect mask truth_flat) val
        [F.q 1, F.q 1, est.getD 0 F.nan] ++ est.drop 1
      else
        [F.q 1, F.q 1, F.q 0] ++
          List.replicate (no_of_realizations.getD 0) (F.q 1)
    | .meanField _ =>
      [F.q 1, F.q 1, F.q 0] ++
        List.replicate (no_of_realizations.getD 0) (F.q 1)

/-- The construction-time warning of
`EstimateCoefficientsForEnsembleCalibration.__init__`: emitted exactly
once, when the statsmodels import fails while the predictor is the
ensemble realizations. -/
def initWarnsDefaultGuess (statsmodels_found : Bool)
    (predictor_of_mean_flag : String) : Bool :=
  !statsmodels_found && (pyLower predictor_of_mean_flag = "realizations")

/-! ## Coefficient Estimator  (`estimate_coefficients_for_ngr`) -/

/-- `ESTIMATE_COEFFICIENTS_FROM_LINEAR_MODEL_FLAG` of
`EstimateCoefficientsForEnsembleCalibration`. -/
def ESTIMATE_COEFFICIENTS_FROM_LINEAR_MODEL_FLAG : Bool := true

/-- The realization count and predictor cube derived from the (already
unit-converted) historic forecast, as selected by the predictor flag. -/
def estimatorPredictor (predictor_of_mean_flag : String)
    (historic : EnsembleCubeF) : Option ℕ × PredictorField :=
  if pyLower predictor_of_mean_flag = "mean" then
    (none, .meanField (ensembleMean historic.realizations))
  else
    (some historic.realizations.length, .realizationsField historic.realizations)

/-- The initial guess the estimator computes for the (single) processed
date: `compute_initial_guess` on the unit-converted truth and the derived
predictor, with the linear-model flag of the class. -/
def estimatorInitialGuess (statsmodels_found : Bool) (smFit : SmFit)
    (desired_units : ℚ) (predictor_of_mean_flag : String)
    (historic_forecast : EnsembleCubeF) (truth : CubeF) : List F :=
  let historic := convertEnsembleUnits historic_forecast desired_units
  let truth' := convertCubeUnits truth desired_units
  let np := estimatorPredictor predictor_of_mean_flag historic
  compute_initial_guess statsmodels_found smFit truth' np.2
    predictor_of_mean_flag ESTIMATE_COEFFICIENTS_FROM_LINEAR_MODEL_FLAG np.1

/-- `estimate_coefficients_for_ngr`: validate the predictor flag, take
the first validity date of the current forecast, convert the historic
forecast and the truth to the desired units (in place: the converted
cubes are part of the returned state), derive predictor and variance,
compute the initial guess, and either store the NaN-containing guess
directly or store the minimised coefficients, keyed by the date. -/
def estimate_coefficients_for_ngr (optimizer : Optimizer) (cdf pdf : F → F)
    (statsmodels_found : Bool) (smFit : SmFit)
    (distribution : String) (desired_units : ℚ)
    (predictor_of_mean_flag : String)
    (current_forecast : CubeF) (historic_forecast : EnsembleCubeF)
    (truth : CubeF) :
    Except String (List (ℕ × List F) × EnsembleCubeF × CubeF) := do
  let _ ← check_predictor_of_mean_flag predictor_of_mean_flag
  let date ← match current_forecast.times with
    | [] => Except.error "IndexError: index 0 is out of bounds"
    | d :: _ => Except.ok d
  let historic := convertEnsembleUnits historic_forecast desired_units
  let truth' := convertCubeUnits truth desired_units
  let np := estimatorPredictor predictor_of_mean_flag historic
  let forecast_var := ensembleVariance historic.realizations
  let initial_guess := compute_initial_guess statsmodels_found smFit truth'
    np.2 predictor_of_mean_flag ESTIMATE_COEFFICIENTS_FROM_LINEAR_MODEL_FLAG
    np.1
  let nan_in_initial_guess := initial_guess.any F.isNan
  if nan_in_initial_guess then
    Except.ok ([(date, initial_guess)], historic, truth')
  else do
    let coeffs ← crps_minimiser_wrapper optimizer cdf pdf initial_guess
      np.2 truth' forecast_var predictor_of_mean_flag (pyLower distribution)
    Except.ok ([(date, coeffs)], historic, truth')

/-! ## Coefficient Applier  (`ApplyCoefficientsFromEnsembleCalibration`) -/

/-- Coefficient names.  The source uses the strings "gamma", "delta",
"alpha" and "beta" (mean mode) or "beta0", "beta1", ... (realizations
mode, one per realization index); the closed datatype mirrors exactly
those strings, with `beta none` for the bare "beta" and `beta (some i)`
for "beta{i}", and `isBeta` mirroring `key.startswith("beta")`. -/
inductive CoeffName where
  | gamma : CoeffName
  | delta : CoeffName
  | alpha : CoeffName
  | beta : Option ℕ → CoeffName
deriving DecidableEq, Repr

/-- `key.startswith("beta")` on modelled coefficient names. -/
def CoeffName.isBeta : CoeffName → Bool
  | .beta _ => true
  | _ => false

/-- The default `coeff_names` list `["gamma", "delta", "alpha", "beta"]`. -/
def defaultCoeffNames : List CoeffName :=
  [.gamma, .delta, .alpha, .beta none]

/-- Lookup in the name-keyed dictionary
`dict(zip(coeff_names, optimised_coeffs[date]))`. -/
def coeffLookup (entries : List (CoeffName × F)) (n : CoeffName) : Option F :=
  (entries.find? (fun p => p.1 = n)).map Prod.snd

/-- The coefficient-length mismatch message of `_apply_params`
(raised as a ValueError in the source). -/
def coeffLenMismatchMsg (coeff_names : List CoeffName)
    (coeffs_at_date : List F) : String :=
  "Number of coefficient names " ++ toString coeff_names.length ++
  " is not equal to the number of optimised_coeffs_at_date values " ++
  toString coeffs_at_date.length

/-- `_apply_params`: look up the coefficients for the forecast's (first)
validity date, fail when their number differs from the number of
coefficient names, then compute the calibrated mean
(`a + b * X`, with `b` the per-realization squares in realizations mode)
and the calibrated variance `gamma**2 + delta**2 * S^2`, and build the
per-coefficient record. -/
def applyParams (times : List ℕ) (forecast_predictors : PredictorField)
    (forecast_vars : List F) (optimised_coeffs : List (ℕ × List F))
    (coeff_names : List CoeffName) (predictor_of_mean_flag : String) :
    Except String (List F × List F × List (CoeffName × F)) := do
  let date ← match times with
    | [] => Except.error "IndexError: index 0 is out of bounds"
    | d :: _ => Except.ok d
  let coeffs_at_date ← match optimised_coeffs.lookup date with
    | none => Except.error ("KeyError: " ++ toString date)
    | some v => Except.ok v
  if coeffs_at_date.length ≠ coeff_names.length then
    Except.error (coeffLenMismatchMsg coeff_names coeffs_at_date)
  else do
  let entries := List.zip coeff_names coeffs_at_date
  let predicted_mean ←
    if pyLower predictor_of_mean_flag = "mean" then do
      let alpha ← match coeffLookup entries .alpha with
        | none => Except.error "KeyError: alpha"
        | some v => Except.ok v
      let beta_coeff ← match coeffLookup entries (.beta none) with
        | none => Except.error "KeyError: beta"
        | some v => Except.ok v
      let beta := [alpha, beta_coeff]
      let forecast_predictor_flat := flattenPF forecast_predictors
      Except.ok (forecast_predictor_flat.map
        (fun x => dotRow [F.q 1, x] beta))
    else if pyLower predictor_of_mean_flag = "realizations" then do
      let alpha ← match coeffLookup entries .alpha with
        | none => Except.error "KeyError: alpha"
        | some v => Except.ok v
      let beta_values := ((entries.filter (fun p => p.1.isBeta)).map Prod.snd)
      let beta := alpha :: beta_values.map (fun b => F.mul b b)
      let forecast_predictor_rows := convert_cube_data_to_2d forecast_predictors
      Except.ok (forecast_predictor_rows.map
        (fun row => dotRow (F.q 1 :: row) beta))
    else
      Except.error "NameError: name 'predicted_mean' is not defined"
  let gamma ← match coeffLookup entries .gamma with
    | none => Except.error "KeyError: gamma"
    | some v => Except.ok v
  let delta ← match coeffLookup entries .delta with
    | none => Except.error "KeyError: delta"
    | some v => Except.ok v
  let predicted_var := forecast_vars.map
    (fun v => F.add (F.mul gamma gamma) (F.mul (F.mul delta delta) v))
  Except.ok (predicted_mean, predicted_var, entries)

/-- `apply_params_entry`: validate the predictor flag, derive the
predictor (collapsed mean, or the realizations with the coefficient
names re-written to one "beta{r}" per realization) and the realization
variance from the current forecast, and apply the coefficients. -/
def apply_params_entry (current_forecast : EnsembleCubeF)
    (optimised_coeffs : List (ℕ × List F)) (coeff_names : List CoeffName)
    (predictor_of_mean_flag : String) :
    Except String (List F × List F × List (CoeffName × F)) := do
  let _ ← check_predictor_of_mean_flag predictor_of_mean_flag
  let (forecast_predictors, coeff_names') :=
    if pyLower predictor_of_mean_flag = "mean" then
      (PredictorField.meanField (ensembleMean current_forecast.realizations),
        coeff_names)
    else
      (PredictorField.realizationsField current_forecast.realizations,
        coeff_names.dropLast ++
          (List.range current_forecast.realizations.length).map
            (fun r => CoeffName.beta (some r)))
  let forecast_vars := ensembleVariance current_forecast.realizations
  applyParams current_forecast.times forecast_predictors forecast_vars
    optimised_coeffs coeff_names' predictor_of_mean_flag

/-! ## Controller  (`EnsembleCalibration.process`) -/

/-- `format_calibration_method`: lowercase and replace underscores with
spaces. -/
def formatCalibrationMethod (s : String) : String :=
  ⟨(pyLower s).data.map (fun c => if c = '_' then ' ' else c)⟩

/-- `EnsembleCalibration.process`: validate the predictor flag and the
calibration-method name; when the method is supported the distribution is
checked against the two supported names, but an unrecognized distribution
leaves `ec`/`optimised_coeffs` unassigned (there is no inner else), so
the subsequent use of them fails with a Python NameError; otherwise
estimation runs, then application, then a float32 cast (a no-op here). -/
def process (optimizer : Optimizer) (cdf pdf : F → F)
    (statsmodels_found : Bool) (smFit : SmFit)
    (calibration_method distribution : String) (desired_units : ℚ)
    (predictor_of_mean_flag : String)
    (current_forecast : EnsembleCubeF) (historic_forecast : EnsembleCubeF)
    (truth : CubeF) : Except String (List F × List F) := do
  let _ ← check_predictor_of_mean_flag predictor_of_mean_flag
  let estimated : Option (List (ℕ × List F)) ←
    if formatCalibrationMethod calibration_method = "ensemble model output statistics" ∨
        formatCalibrationMethod calibration_method = "nonhomogeneous gaussian regression" then
      if formatCalibrationMethod distribution = "gaussian" ∨
          formatCalibrationMethod distribution = "truncated gaussian" then do
        let r ← estimate_coefficients_for_ngr optimizer cdf pdf
          statsmodels_found smFit distribution desired_units
          predictor_of_mean_flag
          ⟨current_forecast.times, current_forecast.units,
            (ensembleMean current_forecast.realizations)⟩
          historic_forecast truth
        Except.ok (some r.1)
      else
        Except.ok none
    else
      Except.error ("Other calibration methods are not available. " ++
        formatCalibrationMethod calibration_method ++ " is not available")
  let optimised_coeffs ← match estimated with
    | none => Except.error "NameError: name 'ec' is not defined"
    | some cs => Except.ok cs
  let r ← apply_params_entry current_forecast optimised_coeffs
    defaultCoeffNames predictor_of_mean_flag
  Except.ok (r.1, r.2.1)

/-- The grid points at which neither the forecast-predictor value nor the
truth value is NaN, as (predictor, truth) pairs. -/
def nonNanPairs (x y : List F) : List (F × F) :=
  (x.zip y).filter (fun p => !p.1.isNan && !p.2.isNan)

/-- The `mu/sigma` array as computed inside both objective functions. -/
def muOverSigma (initial_guess : List F) (forecast_predictor : List (List F))
    (forecast_var : List F) (predictor_of_mean_flag : String) : List F :=
  List.zipWith F.div
    (muOf (betaOf predictor_of_mean_flag initial_guess) forecast_predictor)
    (sigmaOf (initial_guess.getD 0 F.nan) (initial_guess.getD 1 F.nan)
      forecast_var)

/-! ## Basic facts about the value domain -/

theorem F.add_q0_left (x : F) : F.add (F.q 0) x = x := by
  cases x <;> simp [F.add]

theorem F.mul_q1_right (x : F) : F.mul x (F.q 1) = x := by
  cases x <;> simp [F.mul]

theorem F.mul_q1_left (x : F) : F.mul (F.q 1) x = x := by
  cases x <;> simp [F.mul]

theorem pyLower_mean : pyLower "mean" = "mean" := by decide

theorem pyLower_realizations : pyLower "realizations" = "realizations" := by
  decide

/-! ## C8: default initial guesses -/

/-- C8: when regression is not used, `compute_initial_guess` returns
exactly [1, 1, 0, 1] in mean mode and [1, 1, 0] ++ R ones in realizations
mode; when the linear-regression capability (statsmodels) is unavailable
in realizations mode it falls back to the same default row, and the
constructor warns (once, at construction time) that a default guess will
be used. -/
theorem C8_default_initial_guess (sf : Bool) (smf : SmFit) (truth : CubeF)
    (pf : PredictorField) (ms : List (List F)) (R : ℕ) :
    compute_initial_guess sf smf truth pf "mean" false none
      = [F.q 1, F.q 1, F.q 0, F.q 1]
    ∧ compute_initial_guess sf smf truth pf "realizations" false (some R)
      = [F.q 1, F.q 1, F.q 0] ++ List.replicate R (F.q 1)
    ∧ compute_initial_guess false smf truth (.realizationsField ms)
        "realizations" true (some R)
      = [F.q 1, F.q 1, F.q 0] ++ List.replicate R (F.q 1)
    ∧ initWarnsDefaultGuess false "realizations" = true := by
  refine ⟨?_, ?_, ?_, ?_⟩
  · simp [compute_initial_guess, pyLower_mean]
  · simp [compute_initial_guess, pyLower_realizations,
      show ¬("realizations" = "mean") by decide]
  · simp [compute_initial_guess, pyLower_realizations,
      show ¬("realizations" = "mean") by decide]
  · simp [initWarnsDefaultGuess, pyLower_realizations]

/-! ## C9: regression-based initial guess in mean mode -/

theorem maskSelect_combined_fst (t : List F) : ∀ f : List F,
    t.length = f.length →
    maskSelect (combinedNotNan t f) f = (nonNanPairs f t).map Prod.fst := by
  induction t with
  | nil =>
    intro f h
    cases f with
    | nil => rfl
    | cons fh ft => simp at h
  | cons th tt ih =>
    intro f h
    cases f with
    | nil => simp at h
    | cons fh ft =>
      simp only [List.length_cons, Nat.succ.injEq] at h
      simp only [combinedNotNan, List.zipWith, maskSelect, nonNanPairs,
        List.zip, List.zipWith, List.filter]
      by_cases hth : th.isNan <;> by_cases hfh : fh.isNan <;>
        simp [hth, hfh, maskSelect, nonNanPairs, combinedNotNan, List.zip] at * <;>
        exact ih ft h

theorem maskSelect_combined_snd (t : List F) : ∀ f : List F,
    t.length = f.length →
    maskSelect (combinedNotNan t f) t = (nonNanPairs f t).map Prod.snd := by
  induction t with
  | nil =>
    intro f h
    cases f with
    | nil => rfl
    | cons fh ft => simp at h
  | cons th tt ih =>
    intro f h
    cases f with
    | nil => simp at h
    | cons fh ft =>
      simp only [List.length_cons, Nat.succ.injEq] at h
      simp only [combinedNotNan, List.zipWith, maskSelect, nonNanPairs,
        List.zip, List.zipWith, List.filter]
      by_cases hth : th.isNan <;> by_cases hfh : fh.isNan <;>
        simp [hth, hfh, maskSelect, nonNanPairs, combinedNotNan, List.zip] at * <;>
        exact ih ft h

theorem combined_all_not_iff (t : List F) : ∀ f : List F,
    t.length = f.length →
    ((combinedNotNan t f).all (fun b => !b) = true ↔ nonNanPairs f t = []) := by
  induction t with
  | nil =>
    intro f h
    cases f with
    | nil => simp [combinedNotNan, nonNanPairs]
    | cons fh ft => simp at h
  | cons th tt ih =>
    intro f h
    cases f with
    | nil => simp at h
    | cons fh ft =>
      simp only [List.length_cons, Nat.succ.injEq] at h
      by_cases hth : th.isNan <;> by_cases hfh : fh.isNan <;>
        simp [hth, hfh, combinedNotNan, nonNanPairs, List.zip] at * <;>
        exact ih ft h

/-- C9: in mean mode with regression enabled, `compute_initial_guess`
returns [1, 1, intercept, slope], where slope and intercept are the
closed-form ordinary-least-squares coefficients of the truth against the
predictor over exactly the grid points where neither value is NaN, and
both are NaN when no valid pair exists. -/
theorem C9_regression_initial_guess (sf : Bool) (smf : SmFit) (t : CubeF)
    (pd : List F) (n : Option ℕ) (h : t.data.length = pd.length) :
    compute_initial_guess sf smf t (.meanField pd) "mean" true n =
      if nonNanPairs pd t.data = [] then [F.q 1, F.q 1, F.nan, F.nan]
      else
        [F.q 1, F.q 1,
          (linregressF ((nonNanPairs pd t.data).map Prod.fst)
            ((nonNanPairs pd t.data).map Prod.snd)).2,
          (linregressF ((nonNanPairs pd t.data).map Prod.fst)
            ((nonNanPairs pd t.data).map Prod.snd)).1] := by
  simp only [compute_initial_guess, pyLower_mean, flattenPF,
    not_true, and_false, if_false, and_true, if_true,
    show ¬("mean" = "realizations") by decide, false_and, eq_self_iff_true]
  rw [maskSelect_combined_fst t.data pd h, maskSelect_combined_snd t.data pd h]
  by_cases hp : nonNanPairs pd t.data = []
  · rw [if_pos ((combined_all_not_iff t.data pd h).2 hp), if_pos hp]
  · rw [if_neg (fun hc => hp ((combined_all_not_iff t.data pd h).1 hc)),
      if_neg hp]

/-- Witness for C9 at a concrete input with one NaN truth point. -/
theorem C9_witness :
    (⟨[0], 1, [F.q 1, F.q 3, F.nan]⟩ : CubeF).data.length
        = [F.q 2, F.q 4, F.q 5].length
    ∧ compute_initial_guess true (fun _ _ => []) ⟨[0], 1, [F.q 1, F.q 3, F.nan]⟩
        (.meanField [F.q 2, F.q 4, F.q 5]) "mean" true none =
      if nonNanPairs [F.q 2, F.q 4, F.q 5] [F.q 1, F.q 3, F.nan] = [] then
        [F.q 1, F.q 1, F.nan, F.nan]
      else
        [F.q 1, F.q 1,
          (linregressF ((nonNanPairs [F.q 2, F.q 4, F.q 5]
              [F.q 1, F.q 3, F.nan]).map Prod.fst)
            ((nonNanPairs [F.q 2, F.q 4, F.q 5]
              [F.q 1, F.q 3, F.nan]).map Prod.snd)).2,
          (linregressF ((nonNanPairs [F.q 2, F.q 4, F.q 5]
              [F.q 1, F.q 3, F.nan]).map Prod.fst)
            ((nonNanPairs [F.q 2, F.q 4, F.q 5]
              [F.q 1, F.q 3, F.nan]).map Prod.snd)).1] :=
  ⟨by decide, C9_regression_initial_guess true (fun _ _ => [])
    ⟨[0], 1, [F.q 1, F.q 3, F.nan]⟩ [F.q 2, F.q 4, F.q 5] none (by decide)⟩

/-! ## C4: sentinel-loss policy of the objective functions -/

/-- C4 (amended): both objective functions substitute the sentinel loss
999999 exactly according to the `np.min`-based check of the source: the
Gaussian objective when the NaN-propagating minimum of `mu/sigma` is not
finite, the truncated-Gaussian objective additionally when that minimum
is below -3; the degeneracy is handled by returning the sentinel value,
not by raising. -/
theorem C4_sentinel_on_min (cdf pdf : F → F) (guess : List F)
    (rows : List (List F)) (truth var : List F) (sp : F) (flag : String) :
    ((npMin (muOverSigma guess rows var flag)).isFinite = false →
      normal_crps_minimiser cdf pdf guess rows truth var sp flag = BAD_VALUE)
    ∧ ((npMin (muOverSigma guess rows var flag)).isFinite = false ∨
        F.lt (npMin (muOverSigma guess rows var flag)) (F.q (-3)) = true →
      truncated_normal_crps_minimiser cdf pdf guess rows truth var sp flag
        = BAD_VALUE) := by
  constructor
  · intro hm
    simp only [muOverSigma] at hm
    simp only [normal_crps_minimiser]
    rw [hm]
    simp
  · intro hm
    simp only [muOverSigma] at hm
    simp only [truncated_normal_crps_minimiser]
    rcases hm with hm | hm
    · rw [hm]
      simp
    · rw [hm]
      simp

/-- Witness for C4 at a concrete degenerate input (`sigma = 0`, so
`mu/sigma` is +inf at the only grid point and its minimum is not
finite). -/
theorem C4_sentinel_witness :
    (npMin (muOverSigma [F.q 0, F.q 1, F.q 1, F.q 0] [[F.q 0]] [F.q 0]
        "mean")).isFinite = false
    ∧ normal_crps_minimiser (fun _ => F.q 0) (fun _ => F.q 0)
        [F.q 0, F.q 1, F.q 1, F.q 0] [[F.q 0]] [F.q 1] [F.q 0] (F.q 2) "mean"
        = BAD_VALUE
    ∧ truncated_normal_crps_minimiser (fun _ => F.q 0) (fun _ => F.q 0)
        [F.q 0, F.q 1, F.q 1, F.q 0] [[F.q 0]] [F.q 1] [F.q 0] (F.q 2) "mean"
        = BAD_VALUE := by
  have hm : (npMin (muOverSigma [F.q 0, F.q 1, F.q 1, F.q 0] [[F.q 0]]
      [F.q 0] "mean")).isFinite = false := by
    norm_num [muOverSigma, muOf, sigmaOf, betaOf, dotRow, npMin, pyLower_mean,
      F.mul, F.add, F.div, sqrtF, ratSqrt, natSqrtBounded, F.min2, F.isFinite,
      List.range, List.range.loop]
  refine ⟨hm, ?_, ?_⟩
  · exact (C4_sentinel_on_min (fun _ => F.q 0) (fun _ => F.q 0)
      [F.q 0, F.q 1, F.q 1, F.q 0] [[F.q 0]] [F.q 1] [F.q 0] (F.q 2) "mean").1 hm
  · exact (C4_sentinel_on_min (fun _ => F.q 0) (fun _ => F.q 0)
      [F.q 0, F.q 1, F.q 1, F.q 0] [[F.q 0]] [F.q 1] [F.q 0] (F.q 2) "mean").2
      (Or.inl hm)

/-- Counterexample to C4 as stated: with two grid points where `mu/sigma`
is [+inf, 1] (non-finite at the first point), `np.min` is the finite 1,
so the Gaussian objective returns the computed CRPS (here -1/2 for an
arbitrary instantiation of the external CDF/PDF), not the sentinel. -/
theorem C4_counterexample :
    ((muOverSigma [F.q 0, F.q 1, F.q 1, F.q 0] [[F.q 0], [F.q 0]]
        [F.q 0, F.q 1] "mean").any (fun x => !x.isFinite)) = true
    ∧ normal_crps_minimiser (fun _ => F.q 0) (fun _ => F.q 0)
        [F.q 0, F.q 1, F.q 1, F.q 0] [[F.q 0], [F.q 0]] [F.q 1, F.q 1]
        [F.q 0, F.q 1] (F.q 2) "mean" ≠ BAD_VALUE := by
  constructor
  · norm_num [muOverSigma, muOf, sigmaOf, betaOf, dotRow, pyLower_mean,
      F.mul, F.add, F.div, sqrtF, ratSqrt, natSqrtBounded, F.isFinite,
      List.range, List.range.loop]
  · norm_num [normal_crps_minimiser, muOverSigma, muOf, sigmaOf, betaOf,
      dotRow, npMin, npNansum, pyLower_mean, BAD_VALUE,
      F.mul, F.add, F.sub, F.neg, F.div, sqrtF, ratSqrt, natSqrtBounded,
      F.min2, F.isFinite, F.isNan, List.range, List.range.loop]

/-! ## C5: coefficient-length mismatch aborts the apply step -/

/-- C5: whenever the coefficient vector looked up for the forecast's
validity date has a length different from the number of coefficient
names, `_apply_params` fails with the shape-mismatch error before
producing any calibrated output. -/
theorem C5_shape_mismatch (d : ℕ) (ts : List ℕ) (pf : PredictorField)
    (vars : List F) (oc : List (ℕ × List F)) (names : List CoeffName)
    (flag : String) (v : List F)
    (hl : oc.lookup d = some v)
    (hlen : v.length ≠ names.length) :
    applyParams (d :: ts) pf vars oc names flag
      = Except.error (coeffLenMismatchMsg names v) := by
  simp only [applyParams, Except.instMonad, Except.bind, hl]
  rw [if_pos hlen]

/-- Witness for C5: three coefficients against the four default
coefficient names. -/
theorem C5_witness :
    ([(3, [F.q 1, F.q 2, F.q 3])] : List (ℕ × List F)).lookup 3
        = some [F.q 1, F.q 2, F.q 3]
    ∧ [F.q 1, F.q 2, F.q 3].length ≠ defaultCoeffNames.length
    ∧ applyParams [3] (.meanField []) [] [(3, [F.q 1, F.q 2, F.q 3])]
        defaultCoeffNames "mean"
      = Except.error (coeffLenMismatchMsg defaultCoeffNames
          [F.q 1, F.q 2, F.q 3]) :=
  ⟨by decide, by decide,
    C5_shape_mismatch 3 [] (.meanField []) [] [(3, [F.q 1, F.q 2, F.q 3])]
      defaultCoeffNames "mean" [F.q 1, F.q 2, F.q 3] (by decide) (by decide)⟩

/-! ## C6: calibrated variance -/

/-- C6: for arbitrary real gamma and delta and a non-negative raw
variance field, the applier computes
calibrated variance = gamma^2 + delta^2 * raw variance at every grid
point, and every such value is non-negative. -/
theorem C6_variance_nonneg (g d a b : ℚ) (t : ℕ) (ts : List ℕ)
    (pd : List F) (vars : List ℚ) (hv : ∀ v ∈ vars, 0 ≤ v) :
    applyParams (t :: ts) (.meanField pd) (vars.map F.q)
        [(t, [F.q g, F.q d, F.q a, F.q b])] defaultCoeffNames "mean"
      = Except.ok (pd.map (fun x => dotRow [F.q 1, x] [F.q a, F.q b]),
          vars.map (fun v => F.q (g * g + d * d * v)),
          List.zip defaultCoeffNames [F.q g, F.q d, F.q a, F.q b])
    ∧ ∀ v ∈ vars, 0 ≤ g * g + d * d * v := by
  constructor
  · simp only [applyParams, Except.instMonad, Except.bind]
    rw [show List.lookup t [(t, [F.q g, F.q d, F.q a, F.q b])]
        = some [F.q g, F.q d, F.q a, F.q b] by simp [List.lookup]]
    show Except.ok (pd.map (fun x => dotRow [F.q 1, x] [F.q a, F.q b]),
        (vars.map F.q).map (fun x => F.add (F.mul (F.q g) (F.q g))
          (F.mul (F.mul (F.q d) (F.q d)) x)),
        List.zip defaultCoeffNames [F.q g, F.q d, F.q a, F.q b]) = _
    simp only [Except.ok.injEq, Prod.mk.injEq, true_and, and_true]
    rw [List.map_map]
    exact List.map_congr_left (fun v _ => rfl)
  · intro v hvv
    have h1 := mul_self_nonneg g
    have h2 := mul_nonneg (mul_self_nonneg d) (hv v hvv)
    linarith

/-- Witness for C6 at gamma = -2, delta = 3 over variance field [4, 0]. -/
theorem C6_witness :
    (∀ v ∈ [(4 : ℚ), 0], 0 ≤ v)
    ∧ (applyParams [7] (.meanField [F.q 5]) ([(4 : ℚ), 0].map F.q)
          [(7, [F.q (-2), F.q 3, F.q 1, F.q 1])] defaultCoeffNames "mean"
        = Except.ok ([F.q 5].map
            (fun x => dotRow [F.q 1, x] [F.q 1, F.q 1]),
            [(4 : ℚ), 0].map (fun v => F.q ((-2) * (-2) + 3 * 3 * v)),
            List.zip defaultCoeffNames [F.q (-2), F.q 3, F.q 1, F.q 1])
        ∧ ∀ v ∈ [(4 : ℚ), 0], 0 ≤ (-2 : ℚ) * (-2) + 3 * 3 * v) :=
  ⟨by norm_num,
    C6_variance_nonneg (-2) 3 1 1 7 [] [F.q 5] [4, 0] (by norm_num)⟩


/-! ## C1: identity calibration -/

theorem checkFlag_mean : check_predictor_of_mean_flag "mean" = .ok () := by
  simp [check_predictor_of_mean_flag, pyLower_mean]

theorem checkFlag_realizations :
    check_predictor_of_mean_flag "realizations" = .ok () := by
  simp [check_predictor_of_mean_flag, pyLower_realizations]

theorem dotRow_identity (x : F) : dotRow [F.q 1, x] [F.q 0, F.q 1] = x := by
  show List.foldl F.add (F.q 0) [F.mul (F.q 1) (F.q 0), F.mul x (F.q 1)] = x
  rw [F.mul_q1_right]
  show F.add (F.add (F.q 0) (F.mul (F.q 1) (F.q 0))) x = x
  norm_num [F.mul, F.add_q0_left]

theorem map_dotRow_identity (l : List F) :
    l.map (fun x => dotRow [F.q 1, x] [F.q 0, F.q 1]) = l := by
  exact (List.map_congr_left
    (fun x _ => (dotRow_identity x : _ = id x))).trans (List.map_id l)

theorem var_identity (v : F) :
    F.add (F.mul (F.q 0) (F.q 0)) (F.mul (F.mul (F.q 1) (F.q 1)) v) = v := by
  have h0 : F.mul (F.q 0) (F.q 0) = F.q 0 := by norm_num [F.mul]
  have h1 : F.mul (F.q 1) (F.q 1) = F.q 1 := by norm_num [F.mul]
  rw [h0, h1, F.mul_q1_left, F.add_q0_left]

theorem map_var_identity (l : List F) :
    l.map (fun v => F.add (F.mul (F.q 0) (F.q 0))
      (F.mul (F.mul (F.q 1) (F.q 1)) v)) = l := by
  exact (List.map_congr_left
    (fun v _ => (var_identity v : _ = id v))).trans (List.map_id l)

theorem zipWith_mul_replicate_one (row : List F) :
    List.zipWith F.mul row (List.replicate row.length (F.q 1)) = row := by
  induction row with
  | nil => rfl
  | cons x xs ih =>
    simp only [List.length_cons, List.replicate, List.zipWith,
      F.mul_q1_right, ih]

theorem dotRow_sum (row : List F) :
    dotRow (F.q 1 :: row) (F.q 0 :: List.replicate row.length (F.q 1))
      = sumF row := by
  simp only [dotRow, List.zipWith, zipWith_mul_replicate_one]
  show List.foldl F.add (F.add (F.q 0) (F.mul (F.q 1) (F.q 0))) row = sumF row
  norm_num [F.mul, F.add, sumF]

theorem filter_beta_zip (is : List ℕ) :
    ((List.zip (is.map (fun r => CoeffName.beta (some r)))
        (List.replicate is.length (F.q 1))).filter
      (fun p => p.1.isBeta)).map Prod.snd
    = List.replicate is.length (F.q 1) := by
  induction is with
  | nil => rfl
  | cons i it ih =>
    simp only [List.zip, List.map_cons, List.length_cons, List.replicate,
      List.zipWith, List.filter, CoeffName.isBeta] at ih ⊢
    rw [ih]

theorem decide_gamma_gamma :
    decide (CoeffName.gamma = CoeffName.gamma) = true := rfl

theorem decide_gamma_delta :
    decide (CoeffName.gamma = CoeffName.delta) = false := rfl

theorem decide_gamma_alpha :
    decide (CoeffName.gamma = CoeffName.alpha) = false := rfl

theorem decide_delta_alpha :
    decide (CoeffName.delta = CoeffName.alpha) = false := rfl

theorem decide_delta_delta :
    decide (CoeffName.delta = CoeffName.delta) = true := rfl

theorem decide_alpha_alpha :
    decide (CoeffName.alpha = CoeffName.alpha) = true := rfl

theorem decide_gamma_beta :
    decide (CoeffName.gamma = CoeffName.beta none) = false := rfl

theorem decide_delta_beta :
    decide (CoeffName.delta = CoeffName.beta none) = false := rfl

theorem decide_alpha_beta :
    decide (CoeffName.alpha = CoeffName.beta none) = false := rfl

theorem decide_beta_beta :
    decide (CoeffName.beta none = CoeffName.beta none) = true := rfl

/-- Counterexample to C1 as stated: in realizations mode with
gamma = 0, delta = 1, alpha = 0 and beta_r = 1 for both realizations of
the 2-member ensemble [[1], [3]], the applier returns the per-point
realization sum 4, not the raw ensemble mean 2. -/
theorem C1_counterexample :
    ensembleMean [[F.q 1], [F.q 3]] = [F.q 2]
    ∧ (match apply_params_entry ⟨[0], 1, [[F.q 1], [F.q 3]]⟩
          [(0, [F.q 0, F.q 1, F.q 0, F.q 1, F.q 1])] defaultCoeffNames
          "realizations" with
       | .ok r => r.1
       | .error _ => []) = [F.q 4] := by
  constructor
  · norm_num [ensembleMean, transposeLists, sumF, F.add, F.div]
  · norm_num [apply_params_entry, applyParams, Except.instMonad, Except.bind,
      checkFlag_realizations, pyLower_realizations, defaultCoeffNames,
      List.lookup, coeffLookup, List.find?, CoeffName.isBeta, Option.map,
      List.range, List.range.loop,
      convert_cube_data_to_2d, transposeLists, ensembleVariance, ensembleMean,
      sumF, dotRow, F.add, F.mul, F.sub, F.neg, F.div,
      decide_gamma_gamma, decide_gamma_delta, decide_gamma_alpha,
      decide_delta_alpha, decide_delta_delta, decide_alpha_alpha,
      decide_gamma_beta, decide_delta_beta, decide_alpha_beta,
      decide_beta_beta,
      show ("realizations" : String) ≠ "mean" by decide]

/-- C1 (amended): with gamma = 0, delta = 1, alpha = 0, the applier
reproduces the raw ensemble variance unchanged in both modes; the
calibrated predictor equals the raw ensemble mean in mean mode with
beta = 1, while in realizations mode with beta_r = 1 for every r it is
the per-point sum of the realizations (so the raw ensemble mean only for
a single-member ensemble). -/
theorem C1_identity_amended (cur : EnsembleCubeF) (d : ℕ) (ts : List ℕ)
    (ht : cur.times = d :: ts)
    (hrow : ∀ row ∈ transposeLists cur.realizations,
      row.length = cur.realizations.length) :
    apply_params_entry cur [(d, [F.q 0, F.q 1, F.q 0, F.q 1])]
        defaultCoeffNames "mean"
      = .ok (ensembleMean cur.realizations, ensembleVariance cur.realizations,
          List.zip defaultCoeffNames [F.q 0, F.q 1, F.q 0, F.q 1])
    ∧ apply_params_entry cur
        [(d, F.q 0 :: F.q 1 :: F.q 0 ::
          List.replicate cur.realizations.length (F.q 1))]
        defaultCoeffNames "realizations"
      = .ok ((transposeLists cur.realizations).map sumF,
          ensembleVariance cur.realizations,
          List.zip ([CoeffName.gamma, CoeffName.delta, CoeffName.alpha] ++
            (List.range cur.realizations.length).map
              (fun r => CoeffName.beta (some r)))
            (F.q 0 :: F.q 1 :: F.q 0 ::
              List.replicate cur.realizations.length (F.q 1))) := by
  constructor
  · simp only [apply_params_entry, Except.instMonad, Except.bind,
      checkFlag_mean, pyLower_mean, ht, if_true, eq_self_iff_true]
    simp only [applyParams, Except.instMonad, Except.bind]
    rw [show List.lookup d [(d, [F.q 0, F.q 1, F.q 0, F.q 1])]
        = some [F.q 0, F.q 1, F.q 0, F.q 1] by simp [List.lookup]]
    show Except.ok ((ensembleMean cur.realizations).map
        (fun x => dotRow [F.q 1, x] [F.q 0, F.q 1]),
        (ensembleVariance cur.realizations).map
          (fun v => F.add (F.mul (F.q 0) (F.q 0))
            (F.mul (F.mul (F.q 1) (F.q 1)) v)),
        List.zip defaultCoeffNames [F.q 0, F.q 1, F.q 0, F.q 1]) = _
    rw [map_dotRow_identity, map_var_identity]
  · simp only [apply_params_entry, Except.instMonad, Except.bind,
      checkFlag_realizations, pyLower_realizations, ht,
      show ("realizations" : String) ≠ "mean" by decide, if_false,
      ite_false]
    simp only [applyParams, Except.instMonad, Except.bind]
    rw [show List.lookup d [(d, F.q 0 :: F.q 1 :: F.q 0 ::
        List.replicate cur.realizations.length (F.q 1))]
        = some (F.q 0 :: F.q 1 :: F.q 0 ::
          List.replicate cur.realizations.length (F.q 1))
      by simp [List.lookup]]
    dsimp only
    rw [if_neg (show ¬((F.q 0 :: F.q 1 :: F.q 0 ::
        List.replicate cur.realizations.length (F.q 1)).length
        ≠ (defaultCoeffNames.dropLast ++
          (List.range cur.realizations.length).map
            (fun r => CoeffName.beta (some r))).length) by
      simp [defaultCoeffNames])]
    have hfb := filter_beta_zip (List.range cur.realizations.length)
    rw [List.length_range] at hfb
    show Except.ok ((transposeLists cur.realizations).map
        (fun row => dotRow (F.q 1 :: row)
          (F.q 0 :: (((List.zip ((List.range cur.realizations.length).map
              (fun r => CoeffName.beta (some r)))
            (List.replicate cur.realizations.length (F.q 1))).filter
              (fun p => p.1.isBeta)).map Prod.snd).map
            (fun b => F.mul b b))),
        (ensembleVariance cur.realizations).map
          (fun v => F.add (F.mul (F.q 0) (F.q 0))
            (F.mul (F.mul (F.q 1) (F.q 1)) v)),
        (CoeffName.gamma, F.q 0) :: (CoeffName.delta, F.q 1) ::
          (CoeffName.alpha, F.q 0) ::
          List.zip ((List.range cur.realizations.length).map
            (fun r => CoeffName.beta (some r)))
            (List.replicate cur.realizations.length (F.q 1))) = _
    rw [hfb, map_var_identity, List.map_replicate,
      show F.mul (F.q 1) (F.q 1) = F.q 1 by norm_num [F.mul]]
    have hmap : (transposeLists cur.realizations).map
        (fun row => dotRow (F.q 1 :: row)
          (F.q 0 :: List.replicate cur.realizations.length (F.q 1)))
        = (transposeLists cur.realizations).map sumF := by
      apply List.map_congr_left
      intro row hm
      rw [← hrow row hm]
      exact dotRow_sum row
    rw [hmap]
    rfl

/-- Witness for C1 (amended) on a concrete 2-member, 2-point ensemble. -/
theorem C1_identity_witness :
    apply_params_entry ⟨[9], 1, [[F.q 2, F.q 4], [F.q 6, F.q 8]]⟩
        [(9, [F.q 0, F.q 1, F.q 0, F.q 1])] defaultCoeffNames "mean"
      = .ok (ensembleMean [[F.q 2, F.q 4], [F.q 6, F.q 8]],
          ensembleVariance [[F.q 2, F.q 4], [F.q 6, F.q 8]],
          List.zip defaultCoeffNames [F.q 0, F.q 1, F.q 0, F.q 1])
    ∧ apply_params_entry ⟨[9], 1, [[F.q 2, F.q 4], [F.q 6, F.q 8]]⟩
        [(9, F.q 0 :: F.q 1 :: F.q 0 ::
          List.replicate ([[F.q 2, F.q 4], [F.q 6, F.q 8]] : List (List F)).length (F.q 1))]
        defaultCoeffNames "realizations"
      = .ok ((transposeLists [[F.q 2, F.q 4], [F.q 6, F.q 8]]).map sumF,
          ensembleVariance [[F.q 2, F.q 4], [F.q 6, F.q 8]],
          List.zip ([CoeffName.gamma, CoeffName.delta, CoeffName.alpha] ++
            (List.range ([[F.q 2, F.q 4], [F.q 6, F.q 8]] : List (List F)).length).map
              (fun r => CoeffName.beta (some r)))
            (F.q 0 :: F.q 1 :: F.q 0 ::
              List.replicate ([[F.q 2, F.q 4], [F.q 6, F.q 8]] : List (List F)).length (F.q 1))) :=
  C1_identity_amended ⟨[9], 1, [[F.q 2, F.q 4], [F.q 6, F.q 8]]⟩ 9 [] rfl
    (by decide)

/-! ## C2: unrecognized distribution -/

/-- C2 (code bug in the Controller): with a supported calibration method
and the unrecognized distribution "foo", `process` does not raise a
configuration error naming "foo": the distribution check has no else
branch, so `ec`/`optimised_coeffs` stay unassigned and the subsequent use
fails with a NameError that never mentions the offending value.  The
Minimizer wrapper, in contrast, does fail with a lookup error naming the
requested distribution. -/
theorem C2_distribution_error_eval :
    process (fun _ x => x) (fun _ => F.q 0) (fun _ => F.q 0) true
        (fun _ _ => []) "ensemble model output statistics" "foo" 1 "mean"
        ⟨[0], 1, [[F.q 1]]⟩ ⟨[0], 1, [[F.q 1]]⟩ ⟨[0], 1, [F.q 1]⟩
      = Except.error "NameError: name 'ec' is not defined"
    ∧ crps_minimiser_wrapper (fun _ x => x) (fun _ => F.q 0) (fun _ => F.q 0)
        [F.q 1] (.meanField [F.q 1]) ⟨[0], 1, [F.q 1]⟩ [F.q 1] "mean" "foo"
      = Except.error
          "Distribution requested foo is not supported in the minimisation dictionary" := by
  constructor
  · norm_num [process, Except.instMonad, Except.bind, checkFlag_mean,
      show formatCalibrationMethod "ensemble model output statistics"
        = "ensemble model output statistics" from by decide,
      show formatCalibrationMethod "foo" = "foo" from by decide,
      show ("foo" : String) ≠ "gaussian" from by decide,
      show ("foo" : String) ≠ "truncated gaussian" from by decide]
  · norm_num [crps_minimiser_wrapper, Except.instMonad, Except.bind,
      show ("foo" : String) ≠ "gaussian" from by decide,
      show ("foo" : String) ≠ "truncated gaussian" from by decide]
    decide

/-! ## C3: one entry per distinct date? -/

/-- C3 (code bug): the estimator takes only the first time point of the
current forecast and never loops (despite its own docstring), so for a
current forecast carrying the two distinct validity dates 5 and 6 the
returned coefficient set has a single entry, keyed by 5. -/
theorem C3_single_date_eval :
    ((⟨[5, 6], 1, []⟩ : CubeF).times = [5, 6])
    ∧ (match estimate_coefficients_for_ngr (fun _ x => x) (fun _ => F.q 0)
          (fun _ => F.q 0) true (fun _ _ => []) "gaussian" 1 "mean"
          ⟨[5, 6], 1, []⟩ ⟨[5, 6], 1, [[F.q 0], [F.q 2]]⟩
          ⟨[5, 6], 1, [F.q 3]⟩ with
       | .ok r => r.1.map Prod.fst
       | .error _ => []) = [5] := by
  refine ⟨rfl, ?_⟩
  norm_num [estimate_coefficients_for_ngr, estimatorPredictor,
    Except.instMonad, Except.bind, checkFlag_mean, convertEnsembleUnits,
    convertCubeUnits, compute_initial_guess,
    ESTIMATE_COEFFICIENTS_FROM_LINEAR_MODEL_FLAG, pyLower_mean, flattenPF,
    ensembleMean, ensembleVariance, transposeLists, sumF, combinedNotNan,
    maskSelect, linregressF, F.add, F.mul, F.div, F.sub, F.neg, F.isNan]

/-! ## C7: estimation and its inputs -/

/-- Counterexample to C7 as stated: with the truth supplied in a unit
whose scale differs from the desired calibration unit (scale 2 vs 1),
estimation converts the truth in place, so the truth field coming out of
the estimation state is [6], not the supplied [3]. -/
theorem C7_mutation_counterexample :
    (⟨[4], 2, [F.q 3]⟩ : CubeF).data = [F.q 3]
    ∧ (match estimate_coefficients_for_ngr (fun _ x => x) (fun _ => F.q 0)
          (fun _ => F.q 0) true (fun _ _ => []) "gaussian" 1 "mean"
          ⟨[4], 1, []⟩ ⟨[4], 1, [[F.q 0], [F.q 2]]⟩ ⟨[4], 2, [F.q 3]⟩ with
       | .ok r => r.2.2.data
       | .error _ => []) = [F.q 6] := by
  refine ⟨rfl, ?_⟩
  norm_num [estimate_coefficients_for_ngr, estimatorPredictor,
    Except.instMonad, Except.bind, checkFlag_mean, convertEnsembleUnits,
    convertCubeUnits, compute_initial_guess,
    ESTIMATE_COEFFICIENTS_FROM_LINEAR_MODEL_FLAG, pyLower_mean, flattenPF,
    ensembleMean, ensembleVariance, transposeLists, sumF, combinedNotNan,
    maskSelect, linregressF, F.add, F.mul, F.div, F.sub, F.neg, F.isNan]

theorem map_mul_one (l : List F) : l.map (F.mul (F.q 1)) = l :=
  (List.map_congr_left
    (fun x _ => (F.mul_q1_left x : F.mul (F.q 1) x = id x))).trans
    (List.map_id l)

theorem convertCubeUnits_id (t : CubeF) (du : ℚ) (hdu : du ≠ 0)
    (ht : t.units = du) : convertCubeUnits t du = t := by
  cases t with
  | mk ts us dat =>
    simp only at ht
    subst ht
    simp [convertCubeUnits, div_self hdu, map_mul_one]

theorem convertEnsembleUnits_id (h : EnsembleCubeF) (du : ℚ) (hdu : du ≠ 0)
    (hh : h.units = du) : convertEnsembleUnits h du = h := by
  cases h with
  | mk ts us rs =>
    simp only at hh
    subst hh
    simp [convertEnsembleUnits, div_self hdu, map_mul_one]

/-- C7 (amended): estimation converts the historic forecast and the
truth to the desired unit in place (the converted cubes are the
estimation state); the inputs are left unchanged exactly in the case in
which they are already in the desired unit. -/
theorem C7_no_mutation_when_units_match (opt : Optimizer) (cdf pdf : F → F)
    (sf : Bool) (smf : SmFit) (dist : String) (du : ℚ) (flag : String)
    (cf : CubeF) (h : EnsembleCubeF) (t : CubeF)
    (hdu : du ≠ 0) (hh : h.units = du) (ht : t.units = du) :
    ∀ cs h' t', estimate_coefficients_for_ngr opt cdf pdf sf smf dist du flag
      cf h t = .ok (cs, h', t') → h' = h ∧ t' = t := by
  intro cs h' t' hrun
  simp only [estimate_coefficients_for_ngr, Except.instMonad, Except.bind,
    convertEnsembleUnits_id h du hdu hh, convertCubeUnits_id t du hdu ht]
    at hrun
  split at hrun
  · exact absurd hrun (by simp)
  · split at hrun
    · exact absurd hrun (by simp)
    · split at hrun
      · simp only [Except.ok.injEq, Prod.mk.injEq] at hrun
        exact ⟨hrun.2.1.symm, hrun.2.2.symm⟩
      · split at hrun
        · exact absurd hrun (by simp)
        · simp only [Except.ok.injEq, Prod.mk.injEq] at hrun
          exact ⟨hrun.2.1.symm, hrun.2.2.symm⟩

/-- Witness for C7 (amended): a concrete estimation run with all units
already equal to the desired unit leaves both inputs unchanged. -/
theorem C7_witness :
    (match estimate_coefficients_for_ngr (fun _ x => x) (fun _ => F.q 0)
        (fun _ => F.q 0) true (fun _ _ => []) "gaussian" 1 "mean"
        ⟨[4], 1, []⟩ ⟨[4], 1, [[F.q 0], [F.q 2]]⟩ ⟨[4], 1, [F.q 3]⟩ with
     | .ok r => r.2.1 = (⟨[4], 1, [[F.q 0], [F.q 2]]⟩ : EnsembleCubeF)
        ∧ r.2.2 = (⟨[4], 1, [F.q 3]⟩ : CubeF)
     | .error _ => False) := by
  have heval : estimate_coefficients_for_ngr (fun _ x => x) (fun _ => F.q 0)
      (fun _ => F.q 0) true (fun _ _ => []) "gaussian" 1 "mean"
      ⟨[4], 1, []⟩ ⟨[4], 1, [[F.q 0], [F.q 2]]⟩ ⟨[4], 1, [F.q 3]⟩
      = .ok ([(4, [F.q 1, F.q 1, F.nan, F.nan])],
          ⟨[4], 1, [[F.q 0], [F.q 2]]⟩, ⟨[4], 1, [F.q 3]⟩) := by
    norm_num [estimate_coefficients_for_ngr, estimatorPredictor,
      Except.instMonad, Except.bind, checkFlag_mean, convertEnsembleUnits,
      convertCubeUnits, compute_initial_guess,
      ESTIMATE_COEFFICIENTS_FROM_LINEAR_MODEL_FLAG, pyLower_mean, flattenPF,
      ensembleMean, ensembleVariance, transposeLists, sumF, combinedNotNan,
      maskSelect, linregressF, F.add, F.mul, F.div, F.sub, F.neg, F.isNan]
  rw [heval]
  exact C7_no_mutation_when_units_match (fun _ x => x) (fun _ => F.q 0)
    (fun _ => F.q 0) true (fun _ _ => []) "gaussian" 1 "mean" ⟨[4], 1, []⟩
    ⟨[4], 1, [[F.q 0], [F.q 2]]⟩ ⟨[4], 1, [F.q 3]⟩ one_ne_zero rfl rfl
    [(4, [F.q 1, F.q 1, F.nan, F.nan])] _ _ heval

/-! ## C10: NaN in the initial guess -/

/-- C10: whenever the computed initial guess contains a NaN, the
estimator stores that guess itself as the coefficient vector for the
processed date and returns successfully; the result does not depend on
the Minimizer (the optimizer, CDF and PDF are universally quantified and
absent from the conclusion), so the Minimizer is never invoked. -/
theorem C10_nan_guess_skips_minimiser (opt : Optimizer) (cdf pdf : F → F)
    (sf : Bool) (smf : SmFit) (dist : String) (du : ℚ) (flag : String)
    (cf : CubeF) (h : EnsembleCubeF) (t : CubeF) (d : ℕ) (ts : List ℕ)
    (hflag : check_predictor_of_mean_flag flag = .ok ())
    (htimes : cf.times = d :: ts)
    (hnan : (estimatorInitialGuess sf smf du flag h t).any F.isNan = true) :
    estimate_coefficients_for_ngr opt cdf pdf sf smf dist du flag cf h t
      = .ok ([(d, estimatorInitialGuess sf smf du flag h t)],
          convertEnsembleUnits h du, convertCubeUnits t du) := by
  simp only [estimatorInitialGuess] at hnan
  simp only [estimate_coefficients_for_ngr, Except.instMonad, Except.bind,
    hflag, htimes, estimatorInitialGuess]
  rw [hnan]
  simp

/-- Witness for C10: a degenerate single-pair regression yields the
guess [1, 1, NaN, NaN], which is stored as the date's coefficients. -/
theorem C10_witness :
    check_predictor_of_mean_flag "mean" = .ok ()
    ∧ (⟨[8], 1, []⟩ : CubeF).times = [8]
    ∧ (estimatorInitialGuess true (fun _ _ => []) 1 "mean"
        ⟨[8], 1, [[F.q 0], [F.q 2]]⟩ ⟨[8], 1, [F.q 3]⟩).any F.isNan = true
    ∧ estimate_coefficients_for_ngr (fun _ x => x) (fun _ => F.q 0)
        (fun _ => F.q 0) true (fun _ _ => []) "gaussian" 1 "mean"
        ⟨[8], 1, []⟩ ⟨[8], 1, [[F.q 0], [F.q 2]]⟩ ⟨[8], 1, [F.q 3]⟩
      = .ok ([(8, estimatorInitialGuess true (fun _ _ => []) 1 "mean"
            ⟨[8], 1, [[F.q 0], [F.q 2]]⟩ ⟨[8], 1, [F.q 3]⟩)],
          convertEnsembleUnits ⟨[8], 1, [[F.q 0], [F.q 2]]⟩ 1,
          convertCubeUnits ⟨[8], 1, [F.q 3]⟩ 1) := by
  have hnan : (estimatorInitialGuess true (fun _ _ => []) 1 "mean"
      ⟨[8], 1, [[F.q 0], [F.q 2]]⟩ ⟨[8], 1, [F.q 3]⟩).any F.isNan = true := by
    norm_num [estimatorInitialGuess, estimatorPredictor, convertEnsembleUnits,
      convertCubeUnits, compute_initial_guess,
      ESTIMATE_COEFFICIENTS_FROM_LINEAR_MODEL_FLAG, pyLower_mean, flattenPF,
      ensembleMean, transposeLists, sumF, combinedNotNan, maskSelect,
      linregressF, F.add, F.mul, F.div, F.sub, F.neg, F.isNan]
  exact ⟨checkFlag_mean, rfl, hnan,
    C10_nan_guess_skips_minimiser (fun _ x => x) (fun _ => F.q 0)
      (fun _ => F.q 0) true (fun _ _ => []) "gaussian" 1 "mean"
      ⟨[8], 1, []⟩ ⟨[8], 1, [[F.q 0], [F.q 2]]⟩ ⟨[8], 1, [F.q 3]⟩ 8 []
      checkFlag_mean rfl hnan⟩
